import Mathlib

/-!
Verification of the `eternal_zoo.models` catalog module.

The module consists of three Python dict literals:
  * `HASH_TO_MODEL` : content-address hash → canonical model name;
  * `MODEL_TO_HASH` : the reverse map, derived by a dict comprehension
    `{model: hash for hash, model in HASH_TO_MODEL.items()}`;
  * `FEATURED_MODELS` : canonical model name → heterogeneous metadata record.

We embed each dict literal as an association list in source order and give
Python dict-literal lookup semantics (a later binding of the same key
overwrites an earlier one).  The accessor operations (`resolveHash`,
`resolveName`, `get`) are described by the specification but are not part of
the source file; they are modelled from the spec where needed.
-/

namespace EternalZoo

/-- Lookup with Python dict-literal semantics: the value of the LAST pair
whose key matches wins, mirroring that a later duplicate key in a Python
dict literal (or comprehension) overwrites an earlier one. -/
def pyDictLookup (ps : List (String × α)) (k : String) : Option α :=
  (ps.reverse.find? (fun p => p.1 == k)).map (fun p => p.2)

/-- `k` is a key of the dict. -/
def hasKey (ps : List (String × α)) (k : String) : Bool :=
  (pyDictLookup ps k).isSome

/-- A successful lookup returns a pair of the list. -/
theorem pyDictLookup_mem {ps : List (String × α)} {k : String} {v : α}
    (h : pyDictLookup ps k = some v) : (k, v) ∈ ps := by
  unfold pyDictLookup at h
  cases hf : ps.reverse.find? (fun p => p.1 == k) with
  | none => rw [hf] at h; simp at h
  | some q =>
    rw [hf] at h
    have hpk := List.find?_some hf
    have hmem : q ∈ ps.reverse := List.mem_of_find?_eq_some hf
    rw [List.mem_reverse] at hmem
    obtain ⟨a, b⟩ := q
    simp at h hpk
    rw [← hpk, ← h]
    exact hmem

/-- The `HASH_TO_MODEL` dict literal of `src/eternal_zoo/models.py`,
in source order. -/
def HASH_TO_MODEL : List (String × String) := [
  ("bafkreiacd5mwy4a5wkdmvxsk42nsupes5uf4q3dm52k36mvbhgdrez422y", "qwen3-embedding-0.6b"),
  ("bafkreia7nzedkxlr6tebfxvo552zq7cba6sncloxwyivfl3tpj7hl5dz5u", "qwen3-embedding-4b"),
  ("bafkreib6pws5dx5ur6exbhulmf35twfcizdkxvup4cklzprlvaervfz5zy", "qwen3-1.7b"),
  ("bafkreiekokvzioogj5hoxgxlorqvbw2ed3w4mwieium5old5jq3iubixza", "qwen3-4b"),
  ("bafkreid5z4lddvv4qbgdlz2nqo6eumxwetwmkpesrumisx72k3ahq73zpy", "qwen3-8b"),
  ("bafkreiclwlxc56ppozipczuwkmgnlrxrerrvaubc5uhvfs3g2hp3lftrwm", "qwen3-14b"),
  ("bafkreihq4usl2t3i6pqoilvorp4up263yieuxcqs6xznlmrig365bvww5i", "qwen3-32b"),
  ("bafkreieroiopteqmtbjadlnpq3qkakdu7omvtuavs2l2qbu46ijnfdo2ly", "qwen3-30b-a3b"),
  ("bafkreie4uj3gluik5ob2ib3cm2pt6ww7n4vqpmjnq6pas4gkkor42yuysa", "qwen3-235b-a22b"),
  ("bafkreib6thkvzddxkxtgkeslioreae66uef42gtxzy4wh7cyzf6fmlq3rm", "qwen3-coder-480b-a35b"),
  ("bafkreiaevddz5ssjnbkmdrl6dzw5sugwirzi7wput7z2ttcwnvj2wiiw5q", "gemma-3-4b"),
  ("bafkreic2bkjuu3fvdoxnvusdt4in6fa6lubzhtjtmcp2zvokvfjpyndakq", "gemma-3-12b"),
  ("bafkreihi2cbsgja5dwa5nsuixicx2x3gbcnh7gsocxbmjxegtewoq2syve", "gemma-3-27b"),
  ("bafkreihz3mz422vpoy7sccwj5tujkerxbjxdlmsqqf3ridxbe3m6ipnq5i", "gemma-3n-e4b"),
  ("bafkreiaztifhss23cftya3bkorbsenzohol2oc3dvngo2srbbosko6gmme", "lfm2-1.2b"),
  ("bafkreidrdplo7mcfhrvocaa26yge6kmxmuwrexm5rffnzo5lbe6fkhjuvq", "openreasoning-nemotron-32b"),
  ("bafkreih4xgr5t7yc3yooz6i6usgpwhggaobspmgut4rnu42gi6cv77o4em", "devstral-small"),
  ("bafkreibokz6tdke7k3eozsro3hh3luyqbub7tzdawpswtt7q6bzfg36fw4", "dolphin-3.0-llama3.1-8b"),
  ("bafkreiclhnqcjfbbusqmg73jcwasomv7tqchkqm3fea5wwzs5vavc2wzfq", "gpt-oss-20b"),
  ("bafkreia4xtrb4vfsf7lblomjwh7cc3nlpci3fsqyeqpgqqflx4cnhwa3za", "gpt-oss-120b"),
  ("bafkreicyuuvaeavozddtpc3tajfejaxuvuw2cpfajtt6lsddo22gcqg2km", "hermes-4-70b"),
  ("bafkreiaha3sjfmv4affmi5kbu6bnayenf2avwafp3cthhar3latmfi632u", "flux-dev"),
  ("bafkreibks5pmc777snbo7dwk26sympe2o24tpqfedjq6gmgghwwu7iio34", "flux-schnell"),
  ("bafkreidbaksrogxispjejczfj36vtf5uzsbjt7irspl6kckynz5u2ugzke", "flux-dev-nsfw"),
  ("bafkreihiaeosw2jlyvzo7od46ihe4iwutgmppqj5d7z74g25qljlcmcikq", "flux-dev-18-loras"),
  ("bafkreidnd2n2sp3gw6c4iutvgdtupqa4qlpsznpjnwqmsna2ko3uhv4fce", "nsfw-lab"),
  ("bafkreidl2y42rs2ymhydn7gojikgv657yy73yldu3nanjsljeepen6ftsy", "lora-lab")
]

/-- `MODEL_TO_HASH = {model: hash for hash, model in HASH_TO_MODEL.items()}`:
the pairs of `HASH_TO_MODEL` swapped, in iteration order. -/
def MODEL_TO_HASH : List (String × String) :=
  HASH_TO_MODEL.map (fun p => (p.2, p.1))

/-- One record of the `FEATURED_MODELS` dict.  Keys that are absent on a
given Python record are `none`; the Python key `"hf-repo"` is spelled
`hf_repo` (Lean identifiers cannot contain a hyphen). -/
structure ModelEntry where
  repo : Option String := none
  hf_repo : Option String := none
  model : Option String := none
  pattern : Option String := none
  projector : Option String := none
  task : String
  backend : String
  architecture : Option String := none
  lora : Option Bool := none
  base_model : Option String := none
deriving Repr, DecidableEq

/-- The `FEATURED_MODELS` dict literal of `src/eternal_zoo/models.py`,
in source order. -/
def FEATURED_MODELS : List (String × ModelEntry) := [
  ("qwen3-embedding-0.6b",
    { repo := some "Qwen/Qwen3-Embedding-0.6B-GGUF",
      model := some "Qwen3-Embedding-0.6B-Q8_0.gguf",
      task := "embed", backend := "gguf" }),
  ("qwen3-embedding-4b",
    { repo := some "Qwen/Qwen3-Embedding-4B-GGUF",
      model := some "Qwen3-Embedding-4B-Q8_0.gguf",
      task := "embed", backend := "gguf" }),
  ("qwen3-1.7b",
    { repo := some "Qwen/Qwen3-1.7B-GGUF",
      model := some "Qwen3-1.7B-Q8_0.gguf",
      task := "chat", backend := "gguf" }),
  ("qwen3-4b",
    { repo := some "Qwen/Qwen3-4B-GGUF",
      model := some "Qwen3-4B-Q8_0.gguf",
      task := "chat", backend := "gguf" }),
  ("qwen3-8b",
    { repo := some "Qwen/Qwen3-8B-GGUF",
      model := some "Qwen3-8B-Q8_0.gguf",
      task := "chat", backend := "gguf" }),
  ("qwen3-14b",
    { repo := some "Qwen/Qwen3-14B-GGUF",
      model := some "Qwen3-14B-Q8_0.gguf",
      task := "chat", backend := "gguf" }),
  ("qwen3-32b",
    { repo := some "Qwen/Qwen3-32B-GGUF",
      model := some "Qwen3-32B-Q8_0.gguf",
      task := "chat", backend := "gguf" }),
  ("qwen3-30b-a3b",
    { repo := some "Qwen/Qwen3-30B-GGUF",
      model := some "Qwen3-30B-A3B-Q8_0.gguf",
      task := "chat", backend := "gguf" }),
  ("qwen3-30b-a3b-instruct-2507",
    { repo := some "unsloth/Qwen3-30B-A3B-Instruct-2507-GGUF",
      model := some "Qwen3-30B-A3B-Instruct-2507-Q8_0.gguf",
      task := "chat", backend := "gguf" }),
  ("qwen3-30b-a3b-thinking-2507",
    { repo := some "unsloth/Qwen3-30B-A3B-Thinking-2507-GGUF",
      model := some "Qwen3-30B-A3B-Thinking-2507-Q8_0.gguf",
      task := "chat", backend := "gguf" }),
  ("qwen3-coder-30b-a3b-instruct",
    { repo := some "unsloth/Qwen3-Coder-30B-A3B-Instruct-GGUF",
      model := some "Qwen3-Coder-30B-A3B-Instruct-Q8_0.gguf",
      task := "chat", backend := "gguf" }),
  ("qwen3-235b-a22b",
    { repo := some "unsloth/Qwen3-235B-A22B-Instruct-2507-GGUF",
      pattern := some "Q4_K_M",
      task := "chat", backend := "gguf" }),
  ("qwen3-coder-480b-a35b",
    { repo := some "unsloth/Qwen3-Coder-480B-A35B-Instruct-GGUF",
      pattern := some "Q4_K_M",
      task := "chat", backend := "gguf" }),
  ("gemma-3-4b",
    { repo := some "lmstudio-community/gemma-3-4B-it-qat-GGUF",
      model := some "gemma-3-4B-it-QAT-Q4_0.gguf",
      projector := some "mmproj-model-f16.gguf",
      task := "chat", backend := "gguf" }),
  ("gemma-3-12b",
    { repo := some "lmstudio-community/gemma-3-12B-it-qat-GGUF",
      model := some "gemma-3-12B-it-QAT-Q4_0.gguf",
      projector := some "mmproj-model-f16.gguf",
      task := "chat", backend := "gguf" }),
  ("gemma-3-27b",
    { repo := some "lmstudio-community/gemma-3-27B-it-qat-GGUF",
      model := some "gemma-3-27B-it-QAT-Q4_0.gguf",
      projector := some "mmproj-model-f16.gguf",
      task := "chat", backend := "gguf" }),
  ("gemma-3n-e4b",
    { repo := some "unsloth/gemma-3n-E4B-it-GGUF",
      model := some "gemma-3n-E4B-it-Q8_0.gguf",
      task := "chat", backend := "gguf" }),
  ("lfm2-1.2b",
    { repo := some "LiquidAI/LFM2-1.2B-GGUF",
      model := some "LFM2-1.2B-Q8_0.gguf",
      task := "chat", backend := "gguf" }),
  ("openreasoning-nemotron-32b",
    { repo := some "lmstudio-community/OpenReasoning-Nemotron-32B-GGUF",
      model := some "OpenReasoning-Nemotron-32B-Q8_0.gguf",
      task := "chat", backend := "gguf" }),
  ("devstral-small",
    { repo := some "mistralai/Devstral-Small-2507_gguf",
      model := some "Devstral-Small-2507-Q8_0.gguf",
      task := "chat", backend := "gguf" }),
  ("dolphin-3.0-llama3.1-8b",
    { repo := some "dphn/Dolphin3.0-Llama3.1-8B-GGUF",
      model := some "Dolphin3.0-Llama3.1-8B-Q8_0.gguf",
      task := "chat", backend := "gguf" }),
  ("gpt-oss-20b",
    { repo := some "bartowski/openai_gpt-oss-20b-GGUF-MXFP4-Experimental",
      model := some "openai_gpt-oss-20b-MXFP4.gguf",
      task := "chat", backend := "gguf" }),
  ("gpt-oss-120b",
    { repo := some "ggml-org/gpt-oss-120b-GGUF",
      pattern := some "mxfp4",
      task := "chat", backend := "gguf" }),
  ("gpt-oss-20b-mlx",
    { hf_repo := some "lmstudio-community/gpt-oss-20b-GGUF",
      task := "chat", backend := "mlx-lm" }),
  ("hermes-4-14b",
    { repo := some "bartowski/NousResearch_Hermes-4-14B-GGUF",
      model := some "NousResearch_Hermes-4-14B-Q4_K_M.gguf",
      task := "chat", backend := "gguf" }),
  ("hermes-4-70b",
    { repo := some "bartowski/NousResearch_Hermes-4-70B-GGUF",
      model := some "NousResearch_Hermes-4-14B-Q8_0.gguf",
      task := "chat", backend := "gguf" }),
  ("hermes-4-405b",
    { repo := some "lmstudio-community/Hermes-4-405B-GGUF",
      pattern := some "Q4_K_M",
      task := "chat", backend := "gguf" }),
  ("flux-dev",
    { repo := some "NikolaSigmoid/FLUX.1-dev",
      task := "image-generation", architecture := some "flux-dev",
      backend := "mlx-flux" }),
  ("flux-schnell",
    { repo := some "NikolaSigmoid/FLUX.1-schnell",
      task := "image-generation", architecture := some "flux-schnell",
      backend := "mlx-flux" }),
  ("flux-krea-dev",
    { repo := some "NikolaSigmoid/FLUX.1-Krea-dev",
      task := "image-generation", architecture := some "flux-dev",
      backend := "mlx-flux" }),
  ("flux-dev-nsfw",
    { repo := some "NikolaSigmoid/FLUX.1-dev-NSFW-Master",
      task := "image-generation", lora := some true,
      base_model := some "flux-dev", architecture := some "flux-dev",
      backend := "mlx-flux" }),
  ("flux-dev-18-loras",
    { repo := some "NikolaSigmoid/FLUX.1-dev-18-loras",
      task := "image-generation", lora := some true,
      base_model := some "flux-dev", architecture := some "flux-dev",
      backend := "mlx-flux" }),
  ("nsfw-lab",
    { repo := some "NikolaSigmoid/NSFW-Lab",
      task := "image-generation", lora := some true,
      base_model := some "flux-schnell", architecture := some "flux-schnell",
      backend := "mlx-flux" }),
  ("lora-lab",
    { repo := some "NikolaSigmoid/lora-lab",
      task := "image-generation", lora := some true,
      base_model := some "flux-dev", architecture := some "flux-dev",
      backend := "mlx-flux" })
]

/-- The error kinds named by the specification that the embedded operations
can produce. -/
inductive CatalogError where
  | UnknownHash
  | UnknownModel
  | NoHashForModel
deriving Repr, DecidableEq

/-- Modelled from the spec: `resolveHash(hash) -> modelName`, failing with
`UnknownHash` if the hash is not registered.  The function itself is not in
`src/eternal_zoo/models.py` (only the `HASH_TO_MODEL` table is); its
behaviour follows the spec's contract in section 4.1. -/
def resolveHash (h : String) : Except CatalogError String :=
  match pyDictLookup HASH_TO_MODEL h with
  | some n => .ok n
  | none => .error .UnknownHash

/-- Modelled from the spec: `resolveName(modelName) -> hash`, failing with
`NoHashForModel` if the name has no published hash.  The function itself is
not in `src/eternal_zoo/models.py` (only the `MODEL_TO_HASH` table is); its
behaviour follows the spec's contract in section 4.1. -/
def resolveName (n : String) : Except CatalogError String :=
  match pyDictLookup MODEL_TO_HASH n with
  | some h => .ok h
  | none => .error .NoHashForModel

/-- Modelled from the spec: `get(modelName) -> entry`, failing with
`UnknownModel` if absent.  The function itself is not in
`src/eternal_zoo/models.py` (only the `FEATURED_MODELS` table is); its
behaviour follows the spec's contract in section 4.2. -/
def get (n : String) : Except CatalogError ModelEntry :=
  match pyDictLookup FEATURED_MODELS n with
  | some e => .ok e
  | none => .error .UnknownModel

/-- Claim C1: for every hash `h` registered in `HASH_TO_MODEL`, resolving it
to its name `n` and resolving `n` back through the derived reverse map
`MODEL_TO_HASH` yields `h` again. -/
theorem hash_roundtrip :
    ∀ h n, pyDictLookup HASH_TO_MODEL h = some n →
      pyDictLookup MODEL_TO_HASH n = some h := by
  intro h n hl
  have hmem : (h, n) ∈ HASH_TO_MODEL := pyDictLookup_mem hl
  have hball : ∀ p ∈ HASH_TO_MODEL,
      pyDictLookup MODEL_TO_HASH p.2 = some p.1 := by decide
  exact hball (h, n) hmem

/-- Witness for C1 at the first registered hash. -/
theorem hash_roundtrip_witness :
    pyDictLookup MODEL_TO_HASH "qwen3-embedding-0.6b" =
      some "bafkreiacd5mwy4a5wkdmvxsk42nsupes5uf4q3dm52k36mvbhgdrez422y" :=
  hash_roundtrip
    "bafkreiacd5mwy4a5wkdmvxsk42nsupes5uf4q3dm52k36mvbhgdrez422y"
    "qwen3-embedding-0.6b" (by decide)

/-- Claim C2: the hash-to-name table is a bijection — distinct hashes map to
distinct names, distinct names map to distinct hashes, and the reverse map
`MODEL_TO_HASH` is exactly the mechanical swap of the forward table. -/
theorem hash_name_bijection :
    (∀ h1 h2 n1 n2, pyDictLookup HASH_TO_MODEL h1 = some n1 →
      pyDictLookup HASH_TO_MODEL h2 = some n2 → h1 ≠ h2 → n1 ≠ n2) ∧
    (∀ n1 n2 g1 g2, pyDictLookup MODEL_TO_HASH n1 = some g1 →
      pyDictLookup MODEL_TO_HASH n2 = some g2 → n1 ≠ n2 → g1 ≠ g2) ∧
    MODEL_TO_HASH = HASH_TO_MODEL.map (fun p => (p.2, p.1)) := by
  refine ⟨?_, ?_, rfl⟩
  · intro h1 h2 n1 n2 hl1 hl2 hne heq
    have hm1 : (h1, n1) ∈ HASH_TO_MODEL := pyDictLookup_mem hl1
    have hm2 : (h2, n2) ∈ HASH_TO_MODEL := pyDictLookup_mem hl2
    have hnd : (HASH_TO_MODEL.map (fun p => p.2)).Nodup := by decide
    have := List.inj_on_of_nodup_map hnd hm1 hm2 (by simpa using heq)
    exact hne (congrArg Prod.fst this)
  · intro n1 n2 g1 g2 hl1 hl2 hne heq
    have hm1 : (n1, g1) ∈ MODEL_TO_HASH := pyDictLookup_mem hl1
    have hm2 : (n2, g2) ∈ MODEL_TO_HASH := pyDictLookup_mem hl2
    have hnd : (MODEL_TO_HASH.map (fun p => p.2)).Nodup := by decide
    have := List.inj_on_of_nodup_map hnd hm1 hm2 (by simpa using heq)
    exact hne (congrArg Prod.fst this)

/-- Witness for C2 on two concrete distinct hashes and two concrete distinct
names. -/
theorem hash_name_bijection_witness :
    ("qwen3-embedding-0.6b" : String) ≠ "qwen3-embedding-4b" ∧
    ("bafkreiacd5mwy4a5wkdmvxsk42nsupes5uf4q3dm52k36mvbhgdrez422y" : String) ≠
      "bafkreia7nzedkxlr6tebfxvo552zq7cba6sncloxwyivfl3tpj7hl5dz5u" :=
  ⟨hash_name_bijection.1
      "bafkreiacd5mwy4a5wkdmvxsk42nsupes5uf4q3dm52k36mvbhgdrez422y"
      "bafkreia7nzedkxlr6tebfxvo552zq7cba6sncloxwyivfl3tpj7hl5dz5u"
      "qwen3-embedding-0.6b" "qwen3-embedding-4b"
      (by decide) (by decide) (by decide),
    hash_name_bijection.2.1
      "qwen3-embedding-0.6b" "qwen3-embedding-4b"
      "bafkreiacd5mwy4a5wkdmvxsk42nsupes5uf4q3dm52k36mvbhgdrez422y"
      "bafkreia7nzedkxlr6tebfxvo552zq7cba6sncloxwyivfl3tpj7hl5dz5u"
      (by decide) (by decide) (by decide)⟩

/-- Claim C3: every name a registered hash resolves to is a key of the
`FEATURED_MODELS` catalog. -/
theorem hashes_resolve_to_catalog :
    ∀ h n, pyDictLookup HASH_TO_MODEL h = some n →
      hasKey FEATURED_MODELS n = true := by
  intro h n hl
  have hmem : (h, n) ∈ HASH_TO_MODEL := pyDictLookup_mem hl
  have hball : ∀ p ∈ HASH_TO_MODEL, hasKey FEATURED_MODELS p.2 = true := by
    decide
  exact hball (h, n) hmem

/-- Witness for C3 at the first registered hash. -/
theorem hashes_resolve_to_catalog_witness :
    hasKey FEATURED_MODELS "qwen3-embedding-0.6b" = true :=
  hashes_resolve_to_catalog
    "bafkreiacd5mwy4a5wkdmvxsk42nsupes5uf4q3dm52k36mvbhgdrez422y"
    "qwen3-embedding-0.6b" (by decide)

/-- Claim C4: every catalog entry flagged `lora = true` names a `base_model`
that is itself a catalog key, whose entry is not a LoRA, and whose
`architecture` equals the LoRA entry's `architecture`. -/
theorem lora_base_model_valid :
    ∀ n e, pyDictLookup FEATURED_MODELS n = some e → e.lora = some true →
      ∃ b be, e.base_model = some b ∧
        pyDictLookup FEATURED_MODELS b = some be ∧
        be.lora ≠ some true ∧ e.architecture = be.architecture := by
  intro n e hl hlora
  have hmem : (n, e) ∈ FEATURED_MODELS := pyDictLookup_mem hl
  have hball : ∀ p ∈ FEATURED_MODELS, p.2.lora = some true →
      (p.2.base_model.any (fun b => (pyDictLookup FEATURED_MODELS b).any
        (fun be => (be.lora != some true) &&
          (p.2.architecture == be.architecture)))) = true := by decide
  have h1 := hball (n, e) hmem hlora
  cases hb : e.base_model with
  | none => simp [Option.any, hb] at h1
  | some b =>
    cases hlb : pyDictLookup FEATURED_MODELS b with
    | none => simp [Option.any, hb, hlb] at h1
    | some be =>
      simp [Option.any, hb, hlb] at h1
      exact ⟨b, be, rfl, hlb, h1.1, h1.2⟩

/-- Witness for C4 at the `flux-dev-nsfw` LoRA entry. -/
theorem lora_base_model_valid_witness :
    ∃ b be,
      ({ repo := some "NikolaSigmoid/FLUX.1-dev-NSFW-Master",
         task := "image-generation", lora := some true,
         base_model := some "flux-dev", architecture := some "flux-dev",
         backend := "mlx-flux" } : ModelEntry).base_model = some b ∧
      pyDictLookup FEATURED_MODELS b = some be ∧
      be.lora ≠ some true ∧
      ({ repo := some "NikolaSigmoid/FLUX.1-dev-NSFW-Master",
         task := "image-generation", lora := some true,
         base_model := some "flux-dev", architecture := some "flux-dev",
         backend := "mlx-flux" } : ModelEntry).architecture =
        be.architecture :=
  lora_base_model_valid "flux-dev-nsfw" _ (by decide) (by decide)

/-- Claim C5: every `backend = "gguf"` catalog entry has a `repo`, a `task`
of `"chat"` or `"embed"`, and exactly one of `model`/`pattern`. -/
theorem gguf_entries_wellformed :
    ∀ n e, pyDictLookup FEATURED_MODELS n = some e → e.backend = "gguf" →
      e.repo ≠ none ∧ (e.task = "chat" ∨ e.task = "embed") ∧
      ((e.model ≠ none ∧ e.pattern = none) ∨
        (e.model = none ∧ e.pattern ≠ none)) := by
  intro n e hl hb
  have hmem : (n, e) ∈ FEATURED_MODELS := pyDictLookup_mem hl
  have hball : ∀ p ∈ FEATURED_MODELS, p.2.backend = "gguf" →
      p.2.repo ≠ none ∧ (p.2.task = "chat" ∨ p.2.task = "embed") ∧
      ((p.2.model ≠ none ∧ p.2.pattern = none) ∨
        (p.2.model = none ∧ p.2.pattern ≠ none)) := by decide
  exact hball (n, e) hmem hb

/-- Witness for C5 at the `qwen3-embedding-0.6b` entry. -/
theorem gguf_entries_wellformed_witness :
    ({ repo := some "Qwen/Qwen3-Embedding-0.6B-GGUF",
       model := some "Qwen3-Embedding-0.6B-Q8_0.gguf",
       task := "embed", backend := "gguf" } : ModelEntry).repo ≠ none ∧
    (({ repo := some "Qwen/Qwen3-Embedding-0.6B-GGUF",
        model := some "Qwen3-Embedding-0.6B-Q8_0.gguf",
        task := "embed", backend := "gguf" } : ModelEntry).task = "chat" ∨
      ({ repo := some "Qwen/Qwen3-Embedding-0.6B-GGUF",
         model := some "Qwen3-Embedding-0.6B-Q8_0.gguf",
         task := "embed", backend := "gguf" } : ModelEntry).task = "embed") ∧
    ((({ repo := some "Qwen/Qwen3-Embedding-0.6B-GGUF",
         model := some "Qwen3-Embedding-0.6B-Q8_0.gguf",
         task := "embed", backend := "gguf" } : ModelEntry).model ≠ none ∧
       ({ repo := some "Qwen/Qwen3-Embedding-0.6B-GGUF",
          model := some "Qwen3-Embedding-0.6B-Q8_0.gguf",
          task := "embed", backend := "gguf" } : ModelEntry).pattern = none) ∨
      (({ repo := some "Qwen/Qwen3-Embedding-0.6B-GGUF",
          model := some "Qwen3-Embedding-0.6B-Q8_0.gguf",
          task := "embed", backend := "gguf" } : ModelEntry).model = none ∧
        ({ repo := some "Qwen/Qwen3-Embedding-0.6B-GGUF",
           model := some "Qwen3-Embedding-0.6B-Q8_0.gguf",
           task := "embed",
           backend := "gguf" } : ModelEntry).pattern ≠ none)) :=
  gguf_entries_wellformed "qwen3-embedding-0.6b" _ (by decide) (by decide)

/-- Claim C6: every `backend = "mlx-flux"` entry has task
`"image-generation"`, an `architecture` and a `repo`; and every
`task = "image-generation"` entry has an `architecture`. -/
theorem mlx_flux_entries_wellformed :
    ∀ n e, pyDictLookup FEATURED_MODELS n = some e →
      (e.backend = "mlx-flux" →
        e.task = "image-generation" ∧ e.architecture ≠ none ∧
        e.repo ≠ none) ∧
      (e.task = "image-generation" → e.architecture ≠ none) := by
  intro n e hl
  have hmem : (n, e) ∈ FEATURED_MODELS := pyDictLookup_mem hl
  have hball : ∀ p ∈ FEATURED_MODELS,
      (p.2.backend = "mlx-flux" →
        p.2.task = "image-generation" ∧ p.2.architecture ≠ none ∧
        p.2.repo ≠ none) ∧
      (p.2.task = "image-generation" → p.2.architecture ≠ none) := by decide
  exact hball (n, e) hmem

/-- Witness for C6 at the `flux-dev` entry. -/
theorem mlx_flux_entries_wellformed_witness :
    (({ repo := some "NikolaSigmoid/FLUX.1-dev", task := "image-generation",
        architecture := some "flux-dev",
        backend := "mlx-flux" } : ModelEntry).backend = "mlx-flux" →
      ({ repo := some "NikolaSigmoid/FLUX.1-dev", task := "image-generation",
         architecture := some "flux-dev",
         backend := "mlx-flux" } : ModelEntry).task = "image-generation" ∧
      ({ repo := some "NikolaSigmoid/FLUX.1-dev", task := "image-generation",
         architecture := some "flux-dev",
         backend := "mlx-flux" } : ModelEntry).architecture ≠ none ∧
      ({ repo := some "NikolaSigmoid/FLUX.1-dev", task := "image-generation",
         architecture := some "flux-dev",
         backend := "mlx-flux" } : ModelEntry).repo ≠ none) ∧
    (({ repo := some "NikolaSigmoid/FLUX.1-dev", task := "image-generation",
        architecture := some "flux-dev",
        backend := "mlx-flux" } : ModelEntry).task = "image-generation" →
      ({ repo := some "NikolaSigmoid/FLUX.1-dev", task := "image-generation",
         architecture := some "flux-dev",
         backend := "mlx-flux" } : ModelEntry).architecture ≠ none) :=
  mlx_flux_entries_wellformed "flux-dev" _ (by decide)

/-- Claim C7: `"gpt-oss-20b-mlx"` is a catalog name with no published hash,
and every catalog name that lacks a published hash makes `resolveName` fail
with `NoHashForModel` rather than return a hash. -/
theorem prerelease_name_no_hash :
    hasKey FEATURED_MODELS "gpt-oss-20b-mlx" = true ∧
    pyDictLookup MODEL_TO_HASH "gpt-oss-20b-mlx" = none ∧
    ∀ n, hasKey FEATURED_MODELS n = true →
      pyDictLookup MODEL_TO_HASH n = none →
      resolveName n = .error .NoHashForModel := by
  refine ⟨by decide, by decide, ?_⟩
  intro n _ hnone
  simp [resolveName, hnone]

/-- Witness for C7 at the `"gpt-oss-20b-mlx"` name itself. -/
theorem prerelease_name_no_hash_witness :
    resolveName "gpt-oss-20b-mlx" = .error .NoHashForModel :=
  prerelease_name_no_hash.2.2 "gpt-oss-20b-mlx" (by decide) (by decide)

/-- Claim C8: looking up a hash absent from `HASH_TO_MODEL` fails with
`UnknownHash`, and looking up a name absent from `FEATURED_MODELS` fails
with `UnknownModel`; no default record is ever returned. -/
theorem unknown_lookups_fail :
    (∀ h, pyDictLookup HASH_TO_MODEL h = none →
      resolveHash h = .error .UnknownHash) ∧
    (∀ n, pyDictLookup FEATURED_MODELS n = none →
      get n = .error .UnknownModel) := by
  constructor
  · intro h hnone
    simp [resolveHash, hnone]
  · intro n hnone
    simp [get, hnone]

/-- Witness for C8 at two concrete unregistered strings. -/
theorem unknown_lookups_fail_witness :
    resolveHash "not-a-registered-hash" = .error .UnknownHash ∧
    get "not-a-registered-model" = .error .UnknownModel :=
  ⟨unknown_lookups_fail.1 "not-a-registered-hash" (by decide),
    unknown_lookups_fail.2 "not-a-registered-model" (by decide)⟩

/-- Claim C9: the concrete hash
`bafkreiacd5mwy4a5wkdmvxsk42nsupes5uf4q3dm52k36mvbhgdrez422y` resolves to
`qwen3-embedding-0.6b` and back, and `get "qwen3-embedding-0.6b"` returns
the embed/gguf record with the expected `repo` and `model` fields. -/
theorem qwen3_embedding_lookups :
    resolveHash "bafkreiacd5mwy4a5wkdmvxsk42nsupes5uf4q3dm52k36mvbhgdrez422y" =
      .ok "qwen3-embedding-0.6b" ∧
    resolveName "qwen3-embedding-0.6b" =
      .ok "bafkreiacd5mwy4a5wkdmvxsk42nsupes5uf4q3dm52k36mvbhgdrez422y" ∧
    ∃ e, get "qwen3-embedding-0.6b" = .ok e ∧
      e.task = "embed" ∧ e.backend = "gguf" ∧
      e.repo = some "Qwen/Qwen3-Embedding-0.6B-GGUF" ∧
      e.model = some "Qwen3-Embedding-0.6B-Q8_0.gguf" :=
  ⟨rfl, rfl,
    ⟨{ repo := some "Qwen/Qwen3-Embedding-0.6B-GGUF",
       model := some "Qwen3-Embedding-0.6B-Q8_0.gguf",
       task := "embed", backend := "gguf" },
      rfl, rfl, rfl, rfl, rfl⟩⟩

/-- Claim C10 (implicit): every catalog entry flagged `lora = true` uses the
`mlx-flux` backend and the `image-generation` task. -/
theorem lora_only_mlx_flux :
    ∀ n e, pyDictLookup FEATURED_MODELS n = some e → e.lora = some true →
      e.backend = "mlx-flux" ∧ e.task = "image-generation" := by
  intro n e hl hlora
  have hmem : (n, e) ∈ FEATURED_MODELS := pyDictLookup_mem hl
  have hball : ∀ p ∈ FEATURED_MODELS, p.2.lora = some true →
      p.2.backend = "mlx-flux" ∧ p.2.task = "image-generation" := by decide
  exact hball (n, e) hmem hlora

/-- Witness for C10 at the `flux-dev-nsfw` LoRA entry. -/
theorem lora_only_mlx_flux_witness :
    ({ repo := some "NikolaSigmoid/FLUX.1-dev-NSFW-Master",
       task := "image-generation", lora := some true,
       base_model := some "flux-dev", architecture := some "flux-dev",
       backend := "mlx-flux" } : ModelEntry).backend = "mlx-flux" ∧
    ({ repo := some "NikolaSigmoid/FLUX.1-dev-NSFW-Master",
       task := "image-generation", lora := some true,
       base_model := some "flux-dev", architecture := some "flux-dev",
       backend := "mlx-flux" } : ModelEntry).task = "image-generation" :=
  lora_only_mlx_flux "flux-dev-nsfw" _ (by decide) (by decide)

end EternalZoo
